import Mathlib

/-!
Verification of `backend/database/reset_db.py`, the database reset script.

The script is a linear sequence of side-effecting calls: drop tables, run a
migration subprocess, run a seed subprocess, optionally insert a test fixture,
then print verification counts.  We embed it as a pure function from the
command-line flags and a `World` (the subprocess results, which drop statements
raise, the model-layer database state, and the rows each verification query
returns) to the trace of events the run performs, with the model-layer
database state threaded explicitly.
-/

namespace ResetDb

/-- Exit status, stdout and stderr captured from a finished subprocess
(`subprocess.run` with `capture_output=True, text=True`, as in `run_cmd`). -/
structure ProcResult where
  returncode : Int
  stdout : String
  stderr : String
deriving DecidableEq

/-- A decimal amount, kept exactly as Python's `Decimal` keeps it: an
integer mantissa and a decimal scale (`⟨45, 3⟩` is `Decimal('0.045')`).
The script never does arithmetic on these values, so this inert
representation is exact. -/
structure Dec where
  mantissa : Int
  scale : Nat
deriving DecidableEq, Inhabited

/-- `str(Decimal(...))` as the script prints it.  Every decimal the script
ever prints (the five position quantities) has scale 0, where this is just
the integer's digits. -/
def Dec.str (d : Dec) : String :=
  if d.scale = 0 then toString d.mantissa
  else toString d.mantissa ++ "e-" ++ toString d.scale

/-- Modelled from the spec: a persisted User row (`src.models` is not in the
repository snapshot).  Identifier is the externally issued `clerk_user_id`. -/
structure User where
  clerk_user_id : String
  display_name : String
  years_until_retirement : Nat
  target_retirement_income : Dec
deriving DecidableEq

/-- Modelled from the spec: a persisted Account row; belongs to exactly one
User (here by the owning user's clerk id), with a surrogate integer id. -/
structure Account where
  id : Nat
  user_id : String
  account_name : String
  account_purpose : String
  cash_balance : Dec
  cash_interest : Dec
deriving DecidableEq, Inhabited

/-- Modelled from the spec: a persisted Position row; belongs to exactly one
Account. -/
structure Position where
  account_id : Nat
  symbol : String
  quantity : Dec
deriving DecidableEq

/-- Modelled from the spec: the state the model/repository layer
(`src.models.Database`) reads and writes.  Rows are kept in insertion order;
`nextAccountId` supplies fresh account ids. -/
structure DBState where
  users : List User
  accounts : List Account
  positions : List Position
  nextAccountId : Nat
deriving DecidableEq

/-- Modelled from the spec: `db_models.users.find_by_clerk_id` — lookup by
external user id. -/
def find_by_clerk_id (s : DBState) (cid : String) : Option User :=
  s.users.find? (fun u => u.clerk_user_id == cid)

/-- Modelled from the spec: `db_models.users.create_user`. -/
def create_user (s : DBState) (u : User) : DBState :=
  { s with users := s.users ++ [u] }

/-- Modelled from the spec: `db_models.accounts.find_by_user` — the accounts
owned by the given user. -/
def find_by_user (s : DBState) (cid : String) : List Account :=
  s.accounts.filter (fun a => a.user_id == cid)

/-- Modelled from the spec: `db_models.accounts.create_account`; returns the
new account's id together with the updated state. -/
def create_account (s : DBState) (cid name purpose : String)
    (bal intr : Dec) : Nat × DBState :=
  (s.nextAccountId,
   { s with
      accounts := s.accounts ++
        [{ id := s.nextAccountId, user_id := cid, account_name := name,
           account_purpose := purpose, cash_balance := bal,
           cash_interest := intr }],
      nextAccountId := s.nextAccountId + 1 })

/-- Modelled from the spec: `db_models.positions.find_by_account`. -/
def find_by_account (s : DBState) (aid : Nat) : List Position :=
  s.positions.filter (fun p => p.account_id == aid)

/-- Modelled from the spec: `db_models.positions.add_position`. -/
def add_position (s : DBState) (aid : Nat) (sym : String) (qty : Dec) :
    DBState :=
  { s with positions := s.positions ++ [{ account_id := aid, symbol := sym,
                                          quantity := qty }] }

/-- One observable action of a run of the script. -/
inductive Event where
  | execSQL (sql : String)
  | runMigration
  | runSeed
  | findUser (cid : String)
  | createUser (cid : String)
  | findAccounts (cid : String)
  | createAccount (name : String)
  | findPositions (aid : Nat)
  | addPosition (aid : Nat) (symbol : String)
  | queryCount (table : String)
  | print (line : String)
  | exit (code : Nat)
deriving DecidableEq

/-- The environment a run interacts with: results of the two subprocesses,
which drop statements raise (and with what message), the model-layer database
state, and the count rows each verification query returns. -/
structure World where
  migration : ProcResult
  seed : ProcResult
  dropTableError : String → Option String
  dropFunctionError : Option String
  initialDB : DBState
  queryResult : String → List Nat

/-- `tables_to_drop` in `drop_all_tables`. -/
def tables_to_drop : List String :=
  ["positions", "accounts", "jobs", "instruments", "users"]

/-- One iteration of the drop loop: issue the statement, then either the
success line or (when the client raises) the caught-and-logged warning. -/
def dropTableEvents (w : World) (t : String) : List Event :=
  [ .execSQL ("DROP TABLE IF EXISTS " ++ t ++ " CASCADE")] ++
  (match w.dropTableError t with
   | none => [ .print ("   ✅ Dropped " ++ t)]
   | some e => [ .print ("   ⚠️  Error dropping " ++ t ++ ": " ++ e)])

/-- `drop_all_tables`: drop the five tables in listed order, each
independently fault-tolerant, then drop the trigger helper function. -/
def drop_all_tables (w : World) : List Event :=
  [ .print "🗑️  Dropping existing tables..."] ++
  tables_to_drop.flatMap (dropTableEvents w) ++
  [ .execSQL "DROP FUNCTION IF EXISTS update_updated_at_column() CASCADE"] ++
  (match w.dropFunctionError with
   | none => [ .print "   ✅ Dropped update_updated_at_column function"]
   | some e => [ .print ("   ⚠️  Error dropping function: " ++ e)])

/-- The fixture user built by `create_test_data` (`UserCreate(...)`; the
schema validation layer is an external pass-through on these well-typed
literals). -/
def test_user : User :=
  { clerk_user_id := "test_user_001", display_name := "Test User",
    years_until_retirement := 25,
    target_retirement_income := ⟨100000, 0⟩ }

/-- The three fixture accounts of `create_test_data`:
(name, purpose, cash_balance, cash_interest). -/
def fixture_accounts : List (String × String × Dec × Dec) :=
  [("401(k)", "Primary retirement savings", ⟨5000, 0⟩, ⟨45, 3⟩),
   ("Roth IRA", "Tax-free retirement savings", ⟨1000, 0⟩, ⟨4, 2⟩),
   ("Taxable Brokerage", "General investment account", ⟨2500, 0⟩, ⟨35, 3⟩)]

/-- The five fixture positions of `create_test_data`: (symbol, quantity). -/
def fixture_positions : List (String × Dec) :=
  [("SPY", ⟨100, 0⟩), ("QQQ", ⟨50, 0⟩), ("BND", ⟨200, 0⟩),
   ("VEA", ⟨150, 0⟩), ("GLD", ⟨25, 0⟩)]

/-- The three account rows the fixture creates when the ids start at `n`. -/
def fixtureAccountRows (n : Nat) : List Account :=
  [{ id := n, user_id := "test_user_001", account_name := "401(k)",
     account_purpose := "Primary retirement savings",
     cash_balance := ⟨5000, 0⟩, cash_interest := ⟨45, 3⟩ },
   { id := n + 1, user_id := "test_user_001", account_name := "Roth IRA",
     account_purpose := "Tax-free retirement savings",
     cash_balance := ⟨1000, 0⟩, cash_interest := ⟨4, 2⟩ },
   { id := n + 2, user_id := "test_user_001",
     account_name := "Taxable Brokerage",
     account_purpose := "General investment account",
     cash_balance := ⟨2500, 0⟩, cash_interest := ⟨35, 3⟩ }]

/-- The five position rows the fixture creates under account `aid`. -/
def fixturePositionRows (aid : Nat) : List Position :=
  [{ account_id := aid, symbol := "SPY", quantity := ⟨100, 0⟩ },
   { account_id := aid, symbol := "QQQ", quantity := ⟨50, 0⟩ },
   { account_id := aid, symbol := "BND", quantity := ⟨200, 0⟩ },
   { account_id := aid, symbol := "VEA", quantity := ⟨150, 0⟩ },
   { account_id := aid, symbol := "GLD", quantity := ⟨25, 0⟩ }]

/-- The user block of `create_test_data`: look up `test_user_001` by clerk
id, create it only if absent. -/
def userStep (s : DBState) : DBState × List Event :=
  match find_by_clerk_id s "test_user_001" with
  | some _ =>
      (s, [ .findUser "test_user_001",
            .print "   ℹ️  Test user already exists"])
  | none =>
      (create_user s test_user,
       [ .findUser "test_user_001", .createUser "test_user_001",
         .print "   ✅ Created test user"])

/-- The creation loop over `accounts` in `create_test_data`; accumulates
`account_ids` in order. -/
def createAccountsLoop (s : DBState) :
    List (String × String × Dec × Dec) → DBState × List Nat × List Event
  | [] => (s, [], [])
  | (name, purpose, bal, intr) :: rest =>
      let r := create_account s "test_user_001" name purpose bal intr
      let rec' := createAccountsLoop r.2 rest
      (rec'.1, r.1 :: rec'.2.1,
       [ .createAccount name, .print ("   ✅ Created account: " ++ name)] ++
         rec'.2.2)

/-- The account block of `create_test_data`: if the user already has any
accounts, reuse their ids and skip creation entirely; otherwise create the
three fixture accounts. -/
def accountStep (s : DBState) : DBState × List Nat × List Event :=
  let user_accounts := find_by_user s "test_user_001"
  if user_accounts.isEmpty then
    let r := createAccountsLoop s fixture_accounts
    (r.1, r.2.1, [ .findAccounts "test_user_001"] ++ r.2.2)
  else
    (s, user_accounts.map (fun a => a.id),
     [ .findAccounts "test_user_001",
       .print ("   ℹ️  User already has " ++
               toString user_accounts.length ++ " accounts")])

/-- The creation loop over `positions` in `create_test_data`. -/
def addPositionsLoop (s : DBState) (aid : Nat) :
    List (String × Dec) → DBState × List Event
  | [] => (s, [])
  | (sym, qty) :: rest =>
      let s1 := add_position s aid sym qty
      let r := addPositionsLoop s1 aid rest
      (r.1,
       [ .addPosition aid sym,
         .print ("   ✅ Added position: " ++ Dec.str qty ++ " shares of " ++
                 sym)] ++ r.2)

/-- The position block of `create_test_data`, guarded by `if account_ids:`;
`account_ids[0]` is the head, and creation is skipped entirely if that
account already has any positions. -/
def positionStep (s : DBState) : List Nat → DBState × List Event
  | [] => (s, [])
  | aid :: _ =>
      let existing := find_by_account s aid
      if existing.isEmpty then
        let r := addPositionsLoop s aid fixture_positions
        (r.1, [ .findPositions aid] ++ r.2)
      else
        (s, [ .findPositions aid,
              .print ("   ℹ️  Account already has " ++
                      toString existing.length ++ " positions")])

/-- `create_test_data`: user block, then account block, then position block,
each threaded through the model-layer state. -/
def create_test_data (s : DBState) : DBState × List Event :=
  let u := userStep s
  let a := accountStep u.1
  let p := positionStep a.1 a.2.1
  (p.1,
   [ .print "\n👤 Creating test user and portfolio..."] ++
     u.2 ++ a.2.2 ++ p.2)

/-- Does `ns` occur at the start of `hs`? -/
def substrAt : List Char → List Char → Bool
  | [], _ => true
  | _ :: _, [] => false
  | n :: ns, h :: hs => n == h && substrAt ns hs

/-- Does `ns` occur anywhere in `hs` (Python's `in` on strings)? -/
def hasSubstr (ns : List Char) : List Char → Bool
  | [] => substrAt ns []
  | h :: hs => substrAt ns (h :: hs) || hasSubstr ns hs

/-- `'22/22 instruments loaded' in stdout`. -/
def hasMarker (out : String) : Bool :=
  hasSubstr ("22/22 instruments loaded".toList) out.toList

/-- The summary line printed after a successful seed run. -/
def seedSuccessMessage (out : String) : String :=
  if hasMarker out then "✅ Loaded 22 instruments" else "✅ Seed data loaded"

/-- The fixed table list of the final verification loop. -/
def verifyTables : List String :=
  ["users", "instruments", "accounts", "positions", "jobs"]

/-- `result[0]['count'] if result else 0`: the guarded count extraction. -/
def countOf : List Nat → Nat
  | [] => 0
  | c :: _ => c

/-- One iteration of the verification loop: the count query and the printed
count line. -/
def verifyTableEvents (w : World) (t : String) : List Event :=
  [ .queryCount t,
    .print ("   • " ++ t ++ ": " ++ toString (countOf (w.queryResult t)) ++
            " records")]

/-- The final verification loop over the fixed table list. -/
def verifyEvents (w : World) : List Event :=
  verifyTables.flatMap (verifyTableEvents w)

/-- `'=' * 50`. -/
def sep50 : String := String.mk (List.replicate 50 '=')

/-- The closing prints after verification, plus the implicit exit status 0 of
a run that reaches the end of `main`. -/
def closingEvents (with_test_data : Bool) : List Event :=
  [ .print ("\n" ++ sep50), .print "✅ Database reset complete!"] ++
  (if with_test_data then
    [ .print "\n📝 Test user created:",
      .print "   • User ID: test_user_001",
      .print "   • 3 accounts (401k, Roth IRA, Taxable)",
      .print "   • 5 positions in 401k account"]
  else []) ++
  [ .exit 0]

/-- The tail of `main` from the seed step on: run the seed subprocess; on
non-zero status print the failure and stderr and exit 1; otherwise print the
summary line, optionally create the test fixture, verify, and finish. -/
def restFromSeed (with_test_data : Bool) (w : World) : List Event :=
  [ .print "\n🌱 Loading seed data...", .runSeed] ++
  (if w.seed.returncode = 0 then
    [ .print (seedSuccessMessage w.seed.stdout)] ++
    (if with_test_data then (create_test_data w.initialDB).2 else []) ++
    [ .print "\n🔍 Final verification..."] ++ verifyEvents w ++
    closingEvents with_test_data
  else
    [ .print "❌ Seed data failed!", .print w.seed.stderr, .exit 1])

/-- `main`: header prints; unless `--skip-drop`, the drop step and the
migration subprocess (exit 1 on migration failure); then the seed step and
the rest. -/
def mainRun (skip_drop with_test_data : Bool) (w : World) : List Event :=
  [ .print "🚀 Database Reset Script", .print sep50] ++
  (if skip_drop then restFromSeed with_test_data w
   else
    drop_all_tables w ++
    [ .print "\n📝 Running migrations...", .runMigration] ++
    (if w.migration.returncode = 0 then
      [ .print "✅ Migrations completed"] ++ restFromSeed with_test_data w
     else
      [ .print "❌ Migration failed!", .print w.migration.stderr, .exit 1]))

/-- The process exit status a trace ends with (the first `exit` event;
execution stops there). -/
def finalExit : List Event → Option Nat
  | [] => none
  | .exit c :: _ => some c
  | _ :: es => finalExit es

/-- The SQL statements a trace issues, in order. -/
def execSQLsOf (es : List Event) : List String :=
  es.filterMap (fun e => match e with | .execSQL s => some s | _ => none)

/-- The table names a trace runs count queries against, in order. -/
def queriesOf (es : List Event) : List String :=
  es.filterMap (fun e => match e with | .queryCount t => some t | _ => none)

/-- Is the event a write (a raw SQL statement or a model-layer creation)? -/
def isWrite : Event → Bool
  | .execSQL _ => true
  | .createUser _ => true
  | .createAccount _ => true
  | .addPosition _ _ => true
  | _ => false

/-- Is the event a process-exit? -/
def isExit : Event → Bool
  | .exit _ => true
  | _ => false

/-- Events the drop step can produce: SQL statements and prints. -/
def isDropEvent : Event → Bool
  | .execSQL _ => true
  | .print _ => true
  | _ => false

/-- Events the test-fixture step can produce: model-layer operations and
prints. -/
def isFixtureEvent : Event → Bool
  | .findUser _ => true
  | .createUser _ => true
  | .findAccounts _ => true
  | .createAccount _ => true
  | .findPositions _ => true
  | .addPosition _ _ => true
  | .print _ => true
  | _ => false

/-- Events the verification step can produce: count queries and prints. -/
def isVerifyEvent : Event → Bool
  | .queryCount _ => true
  | .print _ => true
  | _ => false

/-- Events that can occur after the drop-and-migrate block: everything
except raw SQL statements and the migration subprocess. -/
def isPostDropEvent : Event → Bool
  | .execSQL _ => false
  | .runMigration => false
  | _ => true

/-- A database state with no rows at all. -/
def emptyDB : DBState :=
  { users := [], accounts := [], positions := [], nextAccountId := 1 }

/-- The state after one full fixture run on the empty database: the test
user, its three accounts, and the five positions under the first account. -/
def seededDB : DBState := (create_test_data emptyDB).1

/-- A subprocess result reporting success with empty output. -/
def okProc : ProcResult := { returncode := 0, stdout := "", stderr := "" }

/-- A healthy world whose seed output contains the instrument marker. -/
def wMarker : World :=
  { migration := okProc,
    seed := { returncode := 0, stdout := "Done: 22/22 instruments loaded",
              stderr := "" },
    dropTableError := fun _ => none, dropFunctionError := none,
    initialDB := emptyDB, queryResult := fun _ => [22] }

/-- A world whose seed subprocess fails with status 1. -/
def wSeedFail : World :=
  { migration := okProc,
    seed := { returncode := 1, stdout := "", stderr := "seed broke" },
    dropTableError := fun _ => none, dropFunctionError := none,
    initialDB := emptyDB, queryResult := fun _ => [0] }

/-- A world whose migration subprocess fails with status 2. -/
def wMigFail : World :=
  { migration := { returncode := 2, stdout := "", stderr := "migration broke" },
    seed := okProc,
    dropTableError := fun _ => none, dropFunctionError := none,
    initialDB := emptyDB, queryResult := fun _ => [0] }

/-- A world where dropping the `positions` table raises. -/
def wDropFail : World :=
  { migration := okProc, seed := okProc,
    dropTableError := fun t => if t == "positions" then some "boom" else none,
    dropFunctionError := none,
    initialDB := emptyDB, queryResult := fun _ => [0] }

/-- A healthy world whose count queries all return an empty row list. -/
def wZeroCounts : World :=
  { migration := okProc, seed := okProc,
    dropTableError := fun _ => none, dropFunctionError := none,
    initialDB := emptyDB, queryResult := fun _ => [] }

lemma not_mem_of_forall {p : Event → Bool} {es : List Event}
    (h : ∀ e ∈ es, p e = true) {e : Event} (he : p e = false) : e ∉ es :=
  fun hm => absurd (h e hm) (by simp [he])

lemma dropTableEvents_classified (w : World) (t : String) :
    ∀ e ∈ dropTableEvents w t, isDropEvent e = true := by
  cases hw : w.dropTableError t <;>
    simp [dropTableEvents, hw, List.forall_mem_cons, isDropEvent]

lemma drop_events_classified (w : World) :
    ∀ e ∈ drop_all_tables w, isDropEvent e = true := by
  have hmap : ∀ e ∈ tables_to_drop.flatMap (dropTableEvents w),
      isDropEvent e = true := by
    intro e he
    obtain ⟨t, _, ht⟩ := List.mem_flatMap.mp he
    exact dropTableEvents_classified w t e ht
  intro e he
  unfold drop_all_tables at he
  rcases List.mem_append.mp he with h1 | h1
  · rcases List.mem_append.mp h1 with h2 | h2
    · rcases List.mem_append.mp h2 with h3 | h3
      · simp only [List.mem_singleton] at h3; subst h3; rfl
      · exact hmap e h3
    · simp only [List.mem_singleton] at h2; subst h2; rfl
  · revert h1
    cases hw : w.dropFunctionError <;> intro h1 <;>
      simp only [List.mem_singleton] at h1 <;> subst h1 <;> rfl

lemma verify_events_classified (w : World) :
    ∀ e ∈ verifyEvents w, isVerifyEvent e = true := by
  intro e he
  obtain ⟨t, _, ht⟩ := List.mem_flatMap.mp he
  simp only [verifyTableEvents, List.forall_mem_cons] at ht ⊢
  rcases List.mem_cons.mp ht with h | h
  · subst h; rfl
  · rcases List.mem_singleton.mp h with h
    subst h; rfl

lemma userStep_classified (s : DBState) :
    ∀ e ∈ (userStep s).2, isFixtureEvent e = true := by
  unfold userStep
  cases find_by_clerk_id s "test_user_001" <;>
    simp [List.forall_mem_cons, isFixtureEvent]

lemma createAccountsLoop_classified (l : List (String × String × Dec × Dec)) :
    ∀ s : DBState, ∀ e ∈ (createAccountsLoop s l).2.2,
      isFixtureEvent e = true := by
  induction l with
  | nil => intro s; simp [createAccountsLoop]
  | cons hd tl ih =>
      intro s
      obtain ⟨name, purpose, bal, intr⟩ := hd
      simp only [createAccountsLoop, List.cons_append, List.nil_append,
        List.forall_mem_cons]
      exact ⟨rfl, rfl, ih _⟩

lemma addPositionsLoop_classified (l : List (String × Dec)) :
    ∀ (s : DBState) (aid : Nat), ∀ e ∈ (addPositionsLoop s aid l).2,
      isFixtureEvent e = true := by
  induction l with
  | nil => intro s aid; simp [addPositionsLoop]
  | cons hd tl ih =>
      intro s aid
      obtain ⟨sym, qty⟩ := hd
      simp only [addPositionsLoop, List.cons_append, List.nil_append,
        List.forall_mem_cons]
      exact ⟨rfl, rfl, ih _ _⟩

lemma accountStep_classified (s : DBState) :
    ∀ e ∈ (accountStep s).2.2, isFixtureEvent e = true := by
  by_cases h : (find_by_user s "test_user_001").isEmpty <;>
    simp only [accountStep, h, if_true, if_false, ite_true, ite_false,
      Bool.false_eq_true, List.cons_append, List.nil_append,
      List.forall_mem_cons]
  · exact ⟨rfl, createAccountsLoop_classified _ _⟩
  · exact ⟨rfl, rfl, by simp⟩

lemma positionStep_classified (s : DBState) (ids : List Nat) :
    ∀ e ∈ (positionStep s ids).2, isFixtureEvent e = true := by
  cases ids with
  | nil => simp [positionStep]
  | cons aid t =>
      by_cases h : (find_by_account s aid).isEmpty <;>
        simp only [positionStep, h, if_true, if_false, ite_true, ite_false,
          Bool.false_eq_true, List.cons_append, List.nil_append,
          List.forall_mem_cons]
      · exact ⟨rfl, addPositionsLoop_classified _ _ _⟩
      · exact ⟨rfl, rfl, by simp⟩

lemma ctd_classified (s : DBState) :
    ∀ e ∈ (create_test_data s).2, isFixtureEvent e = true := by
  intro e he
  simp only [create_test_data] at he
  rcases List.mem_append.mp he with h1 | h1
  · rcases List.mem_append.mp h1 with h2 | h2
    · rcases List.mem_append.mp h2 with h3 | h3
      · simp only [List.mem_singleton] at h3; subst h3; rfl
      · exact userStep_classified s e h3
    · exact accountStep_classified _ e h2
  · exact positionStep_classified _ _ e h1

lemma isExit_false_of_drop {e : Event} (h : isDropEvent e = true) :
    isExit e = false := by
  cases e <;> simp [isDropEvent] at h ⊢ <;> rfl

lemma isExit_false_of_fixture {e : Event} (h : isFixtureEvent e = true) :
    isExit e = false := by
  cases e <;> simp [isFixtureEvent] at h ⊢ <;> rfl

lemma isExit_false_of_verify {e : Event} (h : isVerifyEvent e = true) :
    isExit e = false := by
  cases e <;> simp [isVerifyEvent] at h ⊢ <;> rfl

lemma finalExit_append (l1 l2 : List Event)
    (h : ∀ e ∈ l1, isExit e = false) :
    finalExit (l1 ++ l2) = finalExit l2 := by
  induction l1 with
  | nil => simp
  | cons e rest ih =>
      have he := h e (List.mem_cons_self e rest)
      have hr : ∀ x ∈ rest, isExit x = false :=
        fun x hx => h x (List.mem_cons_of_mem e hx)
      cases e <;> simp only [List.cons_append, finalExit] <;>
        first
        | exact ih hr
        | (simp [isExit] at he)

lemma no_exit_preVerify (wtd : Bool) (w : World) :
    ∀ e ∈ ((if wtd = true then (create_test_data w.initialDB).2 else []) ++
            [Event.print "\n🔍 Final verification..."]) ++ verifyEvents w,
      isExit e = false := by
  intro e he
  rcases List.mem_append.mp he with h1 | h1
  · rcases List.mem_append.mp h1 with h2 | h2
    · cases wtd
      · simp at h2
      · exact isExit_false_of_fixture
          (ctd_classified _ e (by simpa using h2))
    · simp only [List.mem_singleton] at h2; subst h2; rfl
  · exact isExit_false_of_verify (verify_events_classified w e h1)

/-- On a successful seed run, the rest of `main` reaches the end marker and
terminates with status 0. -/
lemma finalExit_restFromSeed_ok (wtd : Bool) (w : World)
    (h : w.seed.returncode = 0) : finalExit (restFromSeed wtd w) = some 0 := by
  unfold restFromSeed
  rw [if_pos h]
  show finalExit
      ((((if wtd = true then (create_test_data w.initialDB).2 else []) ++
          [Event.print "\n🔍 Final verification..."]) ++ verifyEvents w) ++
        closingEvents wtd) = some 0
  rw [finalExit_append _ _ (no_exit_preVerify wtd w)]
  cases wtd <;> rfl

/-- On a failed seed run, the rest of `main` prints the failure and exits
with status 1. -/
lemma finalExit_restFromSeed_fail (wtd : Bool) (w : World)
    (h : ¬ w.seed.returncode = 0) :
    finalExit (restFromSeed wtd w) = some 1 := by
  unfold restFromSeed
  rw [if_neg h]
  rfl

lemma finalExit_mainRun_skip (wtd : Bool) (w : World) :
    finalExit (mainRun true wtd w) = finalExit (restFromSeed wtd w) := rfl

lemma no_exit_dropAndMigHeader (w : World) :
    ∀ e ∈ drop_all_tables w ++
        [Event.print "\n📝 Running migrations...", Event.runMigration],
      isExit e = false := by
  intro e he
  rcases List.mem_append.mp he with h1 | h1
  · exact isExit_false_of_drop (drop_events_classified w e h1)
  · rcases List.mem_cons.mp h1 with h2 | h2
    · subst h2; rfl
    · simp only [List.mem_singleton] at h2; subst h2; rfl

lemma finalExit_mainRun_nodrop_ok (wtd : Bool) (w : World)
    (hm : w.migration.returncode = 0) :
    finalExit (mainRun false wtd w) = finalExit (restFromSeed wtd w) := by
  show finalExit
      ((drop_all_tables w ++
        [Event.print "\n📝 Running migrations...", Event.runMigration]) ++
       (if w.migration.returncode = 0 then
          [Event.print "✅ Migrations completed"] ++ restFromSeed wtd w
        else
          [Event.print "❌ Migration failed!",
           Event.print w.migration.stderr, Event.exit 1])) =
      finalExit (restFromSeed wtd w)
  rw [finalExit_append _ _ (no_exit_dropAndMigHeader w), if_pos hm]
  rfl

lemma finalExit_mainRun_migfail (wtd : Bool) (w : World)
    (hm : ¬ w.migration.returncode = 0) :
    finalExit (mainRun false wtd w) = some 1 := by
  show finalExit
      ((drop_all_tables w ++
        [Event.print "\n📝 Running migrations...", Event.runMigration]) ++
       (if w.migration.returncode = 0 then
          [Event.print "✅ Migrations completed"] ++ restFromSeed wtd w
        else
          [Event.print "❌ Migration failed!",
           Event.print w.migration.stderr, Event.exit 1])) = some 1
  rw [finalExit_append _ _ (no_exit_dropAndMigHeader w), if_neg hm]
  rfl

lemma mainRun_skip_eq (wtd : Bool) (w : World) :
    mainRun true wtd w =
      [Event.print "🚀 Database Reset Script", Event.print sep50] ++
        restFromSeed wtd w := rfl

lemma restFromSeed_fail_eq (wtd : Bool) (w : World)
    (hs : ¬ w.seed.returncode = 0) :
    restFromSeed wtd w =
      [Event.print "\n🌱 Loading seed data...", Event.runSeed,
       Event.print "❌ Seed data failed!", Event.print w.seed.stderr,
       Event.exit 1] := by
  unfold restFromSeed
  rw [if_neg hs]
  rfl

lemma mainRun_migfail_eq (wtd : Bool) (w : World)
    (hm : ¬ w.migration.returncode = 0) :
    mainRun false wtd w =
      [Event.print "🚀 Database Reset Script", Event.print sep50] ++
        drop_all_tables w ++
        [Event.print "\n📝 Running migrations...", Event.runMigration,
         Event.print "❌ Migration failed!", Event.print w.migration.stderr,
         Event.exit 1] := by
  unfold mainRun
  rw [if_neg (by simp), if_neg hm]
  simp [List.append_assoc]

lemma mainRun_nodrop_ok_eq (wtd : Bool) (w : World)
    (hm : w.migration.returncode = 0) :
    mainRun false wtd w =
      [Event.print "🚀 Database Reset Script", Event.print sep50] ++
        drop_all_tables w ++
        [Event.print "\n📝 Running migrations...", Event.runMigration,
         Event.print "✅ Migrations completed"] ++
        restFromSeed wtd w := by
  unfold mainRun
  rw [if_neg (by simp), if_pos hm]
  simp [List.append_assoc]

/-- C2: with the drop step not skipped and the migration subprocess failing,
the captured stderr is printed, the script exits with status 1, and neither
the seed subprocess nor the test-fixture step nor the verification step is
reached. -/
theorem migration_failure_is_fatal (wtd : Bool) (w : World)
    (hm : w.migration.returncode ≠ 0) :
    Event.print w.migration.stderr ∈ mainRun false wtd w
    ∧ finalExit (mainRun false wtd w) = some 1
    ∧ Event.runSeed ∉ mainRun false wtd w
    ∧ (∀ c, Event.findUser c ∉ mainRun false wtd w)
    ∧ (∀ t, Event.queryCount t ∉ mainRun false wtd w) := by
  have heq := mainRun_migfail_eq wtd w hm
  refine ⟨?_, finalExit_mainRun_migfail wtd w hm, ?_, ?_, ?_⟩
  · rw [heq]; simp
  · rw [heq]
    intro hmem
    rcases List.mem_append.mp hmem with h1 | h1
    · rcases List.mem_append.mp h1 with h2 | h2
      · simp at h2
      · exact absurd (drop_events_classified w _ h2) (by simp [isDropEvent])
    · simp at h1
  · intro c
    rw [heq]
    intro hmem
    rcases List.mem_append.mp hmem with h1 | h1
    · rcases List.mem_append.mp h1 with h2 | h2
      · simp at h2
      · exact absurd (drop_events_classified w _ h2) (by simp [isDropEvent])
    · simp at h1
  · intro t
    rw [heq]
    intro hmem
    rcases List.mem_append.mp hmem with h1 | h1
    · rcases List.mem_append.mp h1 with h2 | h2
      · simp at h2
      · exact absurd (drop_events_classified w _ h2) (by simp [isDropEvent])
    · simp at h1

/-- Stated from the spec's words (the refinement side of C6): the exit code
is 0 on full success and 1 when the migration subprocess (run only when the
drop step is not skipped) or the seed subprocess returns a non-zero status. -/
def specExitCode (skip_drop : Bool) (w : World) : Nat :=
  if skip_drop = false ∧ w.migration.returncode ≠ 0 then 1
  else if w.seed.returncode ≠ 0 then 1 else 0

/-- C6: the process exit code is `specExitCode`: 0 on full success, 1
exactly when the migration or the seed subprocess fails; on a seed failure
the captured stderr is printed and neither the test-fixture step nor the
verification step runs. -/
theorem exit_code_correct (sd wtd : Bool) (w : World) :
    finalExit (mainRun sd wtd w) = some (specExitCode sd w)
    ∧ ((sd = true ∨ w.migration.returncode = 0) → w.seed.returncode ≠ 0 →
        Event.print w.seed.stderr ∈ mainRun sd wtd w
        ∧ (∀ c, Event.findUser c ∉ mainRun sd wtd w)
        ∧ (∀ t, Event.queryCount t ∉ mainRun sd wtd w)) := by
  constructor
  · cases sd
    · by_cases hm : w.migration.returncode = 0
      · rw [finalExit_mainRun_nodrop_ok wtd w hm]
        by_cases hs : w.seed.returncode = 0
        · rw [finalExit_restFromSeed_ok wtd w hs]
          simp [specExitCode, hm, hs]
        · rw [finalExit_restFromSeed_fail wtd w hs]
          simp [specExitCode, hm, hs]
      · rw [finalExit_mainRun_migfail wtd w hm]
        simp [specExitCode, hm]
    · rw [finalExit_mainRun_skip wtd w]
      by_cases hs : w.seed.returncode = 0
      · rw [finalExit_restFromSeed_ok wtd w hs]
        simp [specExitCode, hs]
      · rw [finalExit_restFromSeed_fail wtd w hs]
        simp [specExitCode, hs]
  · intro hreach hs
    cases sd
    · have hm : w.migration.returncode = 0 := by
        rcases hreach with h | h
        · exact absurd h (by simp)
        · exact h
      have heq := mainRun_nodrop_ok_eq wtd w hm
      have hfail := restFromSeed_fail_eq wtd w hs
      refine ⟨?_, ?_, ?_⟩
      · rw [heq, hfail]; simp
      · intro c
        rw [heq, hfail]
        intro hmem
        rcases List.mem_append.mp hmem with h1 | h1
        · rcases List.mem_append.mp h1 with h2 | h2
          · rcases List.mem_append.mp h2 with h3 | h3
            · simp at h3
            · exact absurd (drop_events_classified w _ h3)
                (by simp [isDropEvent])
          · simp at h2
        · simp at h1
      · intro t
        rw [heq, hfail]
        intro hmem
        rcases List.mem_append.mp hmem with h1 | h1
        · rcases List.mem_append.mp h1 with h2 | h2
          · rcases List.mem_append.mp h2 with h3 | h3
            · simp at h3
            · exact absurd (drop_events_classified w _ h3)
                (by simp [isDropEvent])
          · simp at h2
        · simp at h1
    · have heq := mainRun_skip_eq wtd w
      have hfail := restFromSeed_fail_eq wtd w hs
      refine ⟨?_, ?_, ?_⟩
      · rw [heq, hfail]; simp
      · intro c
        rw [heq, hfail]
        simp
      · intro t
        rw [heq, hfail]
        simp

lemma find_by_clerk_id_congr (s s' : DBState) (h : s.users = s'.users)
    (c : String) : find_by_clerk_id s c = find_by_clerk_id s' c := by
  simp [find_by_clerk_id, h]

lemma userStep_noop (s : DBState)
    (h : (find_by_clerk_id s "test_user_001").isSome) :
    (userStep s).1 = s := by
  cases hc : find_by_clerk_id s "test_user_001" with
  | none => rw [hc] at h; simp at h
  | some u => simp [userStep, hc]

lemma userStep_create (s : DBState)
    (h : find_by_clerk_id s "test_user_001" = none) :
    (userStep s).1 = create_user s test_user := by
  simp [userStep, h]

lemma user_after_some (s : DBState) :
    (find_by_clerk_id (userStep s).1 "test_user_001").isSome := by
  cases hc : find_by_clerk_id s "test_user_001" with
  | some u => rw [userStep_noop s (by rw [hc]; rfl), hc]; rfl
  | none =>
      rw [userStep_create s hc]
      have hc' : s.users.find?
          (fun u => u.clerk_user_id == "test_user_001") = none := hc
      simp [find_by_clerk_id, create_user, List.find?_append, hc', test_user]

lemma accountStep_reuse (s : DBState) (a : Account) (rest : List Account)
    (h : find_by_user s "test_user_001" = a :: rest) :
    (accountStep s).1 = s
    ∧ (accountStep s).2.1 = (a :: rest).map (fun x => x.id) := by
  have hne : (find_by_user s "test_user_001").isEmpty = false := by
    rw [h]; rfl
  constructor <;> simp [accountStep, hne, h]

lemma accountStep_create (s : DBState)
    (h : find_by_user s "test_user_001" = []) :
    (accountStep s).1 = (createAccountsLoop s fixture_accounts).1
    ∧ (accountStep s).2.1 = (createAccountsLoop s fixture_accounts).2.1 := by
  constructor <;> simp [accountStep, h]

lemma loopA_fields (s : DBState) :
    (createAccountsLoop s fixture_accounts).1.users = s.users
    ∧ (createAccountsLoop s fixture_accounts).1.positions = s.positions
    ∧ (createAccountsLoop s fixture_accounts).1.accounts =
        s.accounts ++ fixtureAccountRows s.nextAccountId
    ∧ (createAccountsLoop s fixture_accounts).2.1 =
        [s.nextAccountId, s.nextAccountId + 1, s.nextAccountId + 2] := by
  refine ⟨rfl, rfl, ?_, rfl⟩
  show ((s.accounts ++ _) ++ _) ++ _ = _
  simp [fixtureAccountRows, create_account]

lemma loopP_fields (s : DBState) (aid : Nat) :
    (addPositionsLoop s aid fixture_positions).1.users = s.users
    ∧ (addPositionsLoop s aid fixture_positions).1.accounts = s.accounts
    ∧ (addPositionsLoop s aid fixture_positions).1.nextAccountId =
        s.nextAccountId
    ∧ (addPositionsLoop s aid fixture_positions).1.positions =
        s.positions ++ fixturePositionRows aid := by
  refine ⟨rfl, rfl, rfl, ?_⟩
  show (((((s.positions ++ _) ++ _) ++ _) ++ _) ++ _) = _
  simp [fixturePositionRows, add_position]

lemma positionStep_skip (s : DBState) (aid : Nat) (t : List Nat)
    (h : find_by_account s aid ≠ []) :
    (positionStep s (aid :: t)).1 = s := by
  have hne : (find_by_account s aid).isEmpty = false := by
    cases hfa : find_by_account s aid
    · exact absurd hfa h
    · rfl
  simp [positionStep, hne]

lemma positionStep_create (s : DBState) (aid : Nat) (t : List Nat)
    (h : find_by_account s aid = []) :
    (positionStep s (aid :: t)).1 =
      (addPositionsLoop s aid fixture_positions).1 := by
  simp [positionStep, h]

lemma positionStep_mem_find (s : DBState) (aid : Nat) (t : List Nat) :
    Event.findPositions aid ∈ (positionStep s (aid :: t)).2 := by
  by_cases h : (find_by_account s aid).isEmpty <;> simp [positionStep, h]

lemma filter_fixtureAccountRows (n : Nat) :
    (fixtureAccountRows n).filter (fun a => a.user_id == "test_user_001") =
      fixtureAccountRows n := rfl

lemma filter_fixturePositionRows (aid : Nat) :
    (fixturePositionRows aid).filter (fun p => p.account_id == aid) =
      fixturePositionRows aid := by
  simp [fixturePositionRows]

/-- A second run of `create_test_data` on a state that already has the test
user, at least one account for it, and at least one position under the first
of those accounts, changes nothing. -/
lemma ctd_noop (s : DBState) (a : Account) (rest : List Account)
    (hU : (find_by_clerk_id s "test_user_001").isSome)
    (hA : find_by_user s "test_user_001" = a :: rest)
    (hP : find_by_account s a.id ≠ []) :
    (create_test_data s).1 = s := by
  have h1 : (userStep s).1 = s := userStep_noop s hU
  obtain ⟨h2a, h2b⟩ := accountStep_reuse s a rest hA
  simp only [create_test_data]
  rw [h1, h2a, h2b, List.map_cons]
  exact positionStep_skip _ _ _ hP

/-- After any run of `create_test_data`, the test user exists, it has at
least one account, and the first of its accounts has at least one
position. -/
lemma ctd_post (s : DBState) : ∃ a rest,
    (find_by_clerk_id (create_test_data s).1 "test_user_001").isSome
    ∧ find_by_user (create_test_data s).1 "test_user_001" = a :: rest
    ∧ find_by_account (create_test_data s).1 a.id ≠ [] := by
  have hU := user_after_some s
  rcases hAl : find_by_user (userStep s).1 "test_user_001" with _ | ⟨a, rest⟩
  · -- no accounts yet: the three fixture accounts are created
    obtain ⟨hc1, hc2⟩ := accountStep_create _ hAl
    obtain ⟨lfU, lfP, lfA, lfI⟩ := loopA_fields (userStep s).1
    set s1 := (userStep s).1 with hs1
    set n := s1.nextAccountId with hn
    have hAl' : s1.accounts.filter
        (fun x => x.user_id == "test_user_001") = [] := hAl
    refine ⟨(fixtureAccountRows n).headI, (fixtureAccountRows n).tail, ?_⟩
    have hids : (accountStep s1).2.1 = [n, n + 1, n + 2] := by
      rw [hc2, lfI]
    simp only [create_test_data, hids]
    have hacc : (accountStep s1).1.accounts =
        s1.accounts ++ fixtureAccountRows n := by rw [hc1, lfA]
    have husers : (accountStep s1).1.users = s1.users := by rw [hc1, lfU]
    have hpos : (accountStep s1).1.positions = s1.positions := by
      rw [hc1, lfP]
    have hfu : find_by_user (accountStep s1).1 "test_user_001" =
        fixtureAccountRows n := by
      simp only [find_by_user, hacc, List.filter_append, hAl',
        filter_fixtureAccountRows, List.nil_append]
    rcases hE : find_by_account (accountStep s1).1 n with _ | ⟨p, ps⟩
    · -- first account has no positions: the five fixture positions go in
      rw [positionStep_create _ _ _ hE]
      obtain ⟨pU, pA, _, pP⟩ := loopP_fields (accountStep s1).1 n
      refine ⟨?_, ?_, ?_⟩
      · have husers3 : (addPositionsLoop (accountStep s1).1 n
            fixture_positions).1.users = (userStep s).1.users := by
          rw [pU, husers]
        rw [find_by_clerk_id_congr _ _ husers3 "test_user_001"]
        exact hU
      · show find_by_user _ "test_user_001" = _
        simp only [find_by_user, pA]
        rw [show ((accountStep s1).1.accounts.filter
            (fun x => x.user_id == "test_user_001")) =
            fixtureAccountRows n from hfu]
        rfl
      · show find_by_account _ ((fixtureAccountRows n).headI).id ≠ []
        have hid : ((fixtureAccountRows n).headI).id = n := rfl
        rw [hid]
        simp only [find_by_account, pP, List.filter_append]
        have hE' : (accountStep s1).1.positions.filter
            (fun p => p.account_id == n) = [] := hE
        rw [hE', filter_fixturePositionRows]
        simp [fixturePositionRows]
    · -- first account already has positions: nothing changes
      rw [positionStep_skip _ _ _ (by rw [hE]; exact List.cons_ne_nil p ps)]
      refine ⟨?_, ?_, ?_⟩
      · rw [find_by_clerk_id_congr _ _ husers "test_user_001"]
        exact hU
      · rw [show find_by_user (accountStep s1).1 "test_user_001" =
            fixtureAccountRows n from hfu]
        rfl
      · have hid : ((fixtureAccountRows n).headI).id = n := rfl
        rw [hid, hE]
        exact List.cons_ne_nil p ps
  · -- accounts already exist: they are reused
    obtain ⟨h2a, h2b⟩ := accountStep_reuse _ a rest hAl
    set s1 := (userStep s).1 with hs1
    refine ⟨a, rest, ?_⟩
    have hids : (accountStep s1).2.1 = a.id :: rest.map (fun x => x.id) := by
      rw [h2b, List.map_cons]
    simp only [create_test_data, hids, h2a]
    rcases hE : find_by_account s1 a.id with _ | ⟨p, ps⟩
    · rw [positionStep_create _ _ _ hE]
      obtain ⟨pU, pA, _, pP⟩ := loopP_fields s1 a.id
      refine ⟨?_, ?_, ?_⟩
      · rw [find_by_clerk_id_congr _ _ pU "test_user_001"]
        exact hU
      · show find_by_user _ "test_user_001" = _
        simp only [find_by_user, pA]
        exact hAl
      · simp only [find_by_account, pP, List.filter_append]
        have hE' : s1.positions.filter (fun p => p.account_id == a.id) =
            [] := hE
        rw [hE', filter_fixturePositionRows]
        simp [fixturePositionRows]
    · rw [positionStep_skip _ _ _ (by rw [hE]; exact List.cons_ne_nil p ps)]
      exact ⟨hU, hAl, by rw [hE]; exact List.cons_ne_nil p ps⟩

lemma filter_eq_nil_of_find?_eq_none {α : Type} {p : α → Bool} {l : List α}
    (h : l.find? p = none) : l.filter p = [] := by
  rw [List.find?_eq_none] at h
  induction l with
  | nil => rfl
  | cons a t ih =>
      have ha := h a (List.mem_cons_self a t)
      simp only [List.filter_cons, ha, if_neg, Bool.false_eq_true,
        ite_false, if_false]
      · exact ih (fun x hx => h x (List.mem_cons_of_mem a hx))

lemma execSQLsOf_append (l1 l2 : List Event) :
    execSQLsOf (l1 ++ l2) = execSQLsOf l1 ++ execSQLsOf l2 := by
  simp [execSQLsOf, List.filterMap_append]

lemma execSQLsOf_dropTableEvents (w : World) (t : String) :
    execSQLsOf (dropTableEvents w t) =
      ["DROP TABLE IF EXISTS " ++ t ++ " CASCADE"] := by
  cases hw : w.dropTableError t <;> simp [dropTableEvents, hw, execSQLsOf]

lemma execSQLsOf_drops (w : World) (ts : List String) :
    execSQLsOf (ts.flatMap (dropTableEvents w)) =
      ts.map (fun t => "DROP TABLE IF EXISTS " ++ t ++ " CASCADE") := by
  induction ts with
  | nil => rfl
  | cons h t ih =>
      rw [List.flatMap_cons, execSQLsOf_append,
        execSQLsOf_dropTableEvents, ih]
      rfl

lemma execSQLsOf_print_singleton (s : String) :
    execSQLsOf [Event.print s] = [] := rfl

lemma execSQLsOf_drop_all (w : World) :
    execSQLsOf (drop_all_tables w) =
      ["DROP TABLE IF EXISTS positions CASCADE",
       "DROP TABLE IF EXISTS accounts CASCADE",
       "DROP TABLE IF EXISTS jobs CASCADE",
       "DROP TABLE IF EXISTS instruments CASCADE",
       "DROP TABLE IF EXISTS users CASCADE",
       "DROP FUNCTION IF EXISTS update_updated_at_column() CASCADE"] := by
  unfold drop_all_tables
  cases hw : w.dropFunctionError <;>
    · rw [execSQLsOf_append, execSQLsOf_append, execSQLsOf_append,
        execSQLsOf_drops]
      simp only [execSQLsOf_print_singleton]
      decide

lemma queriesOf_verifyEvents (w : World) :
    queriesOf (verifyEvents w) = verifyTables := rfl

lemma isWrite_false_of_verify {e : Event} (h : isVerifyEvent e = true) :
    isWrite e = false := by
  cases e <;> simp [isVerifyEvent] at h ⊢ <;> rfl

lemma fixture_isPostDrop {e : Event} (h : isFixtureEvent e = true) :
    isPostDropEvent e = true := by
  cases e <;> simp [isFixtureEvent] at h ⊢ <;> rfl

lemma verify_isPostDrop {e : Event} (h : isVerifyEvent e = true) :
    isPostDropEvent e = true := by
  cases e <;> simp [isVerifyEvent] at h ⊢ <;> rfl

lemma restFromSeed_ok_eq (wtd : Bool) (w : World)
    (hs : w.seed.returncode = 0) :
    restFromSeed wtd w =
      [Event.print "\n🌱 Loading seed data...", Event.runSeed,
       Event.print (seedSuccessMessage w.seed.stdout)] ++
      (if wtd = true then (create_test_data w.initialDB).2 else []) ++
      [Event.print "\n🔍 Final verification..."] ++ verifyEvents w ++
      closingEvents wtd := by
  unfold restFromSeed
  rw [if_pos hs]
  simp [List.append_assoc]

lemma closing_classified (wtd : Bool) :
    ∀ e ∈ closingEvents wtd, isPostDropEvent e = true := by
  cases wtd <;> decide

lemma restFromSeed_classified (wtd : Bool) (w : World) :
    ∀ e ∈ restFromSeed wtd w, isPostDropEvent e = true := by
  by_cases hs : w.seed.returncode = 0
  · rw [restFromSeed_ok_eq wtd w hs]
    intro e he
    rcases List.mem_append.mp he with h1 | h1
    · rcases List.mem_append.mp h1 with h2 | h2
      · rcases List.mem_append.mp h2 with h3 | h3
        · rcases List.mem_append.mp h3 with h4 | h4
          · simp only [List.mem_cons, List.not_mem_nil, or_false] at h4
            rcases h4 with h | h | h <;> subst h <;> rfl
          · cases wtd
            · simp at h4
            · exact fixture_isPostDrop
                (ctd_classified _ e (by simpa using h4))
        · simp only [List.mem_singleton] at h3; subst h3; rfl
      · exact verify_isPostDrop (verify_events_classified w e h2)
    · exact closing_classified wtd e h1
  · rw [restFromSeed_fail_eq wtd w hs]
    intro e he
    simp only [List.mem_cons, List.not_mem_nil, or_false] at he
    rcases he with h | h | h | h | h <;> subst h <;> rfl

/-- C1 (counterexample): in a concrete healthy world, invoking the script
with `--skip-drop` does not run the migration subprocess at all, refuting
the claim that the migration subprocess is still invoked before seeding;
the seed subprocess does run. -/
theorem skip_drop_counterexample :
    Event.runMigration ∉ mainRun true false wMarker
    ∧ Event.runSeed ∈ mainRun true false wMarker := by decide

/-- C1 (amended): with `--skip-drop`, the table-drop step AND the migration
step are both skipped — no SQL drop statement is issued and the migration
subprocess is never invoked — and the script proceeds straight to the seed
step, which is always invoked. -/
theorem skip_drop_skips_drop_and_migration (wtd : Bool) (w : World) :
    (∀ sql, Event.execSQL sql ∉ mainRun true wtd w)
    ∧ Event.runMigration ∉ mainRun true wtd w
    ∧ Event.runSeed ∈ mainRun true wtd w := by
  refine ⟨?_, ?_, ?_⟩
  · intro sql hmem
    rw [mainRun_skip_eq] at hmem
    rcases List.mem_append.mp hmem with h | h
    · simp at h
    · exact absurd (restFromSeed_classified wtd w _ h) (by simp [isPostDropEvent])
  · intro hmem
    rw [mainRun_skip_eq] at hmem
    rcases List.mem_append.mp hmem with h | h
    · simp at h
    · exact absurd (restFromSeed_classified wtd w _ h) (by simp [isPostDropEvent])
  · rw [mainRun_skip_eq]
    refine List.mem_append.mpr (Or.inr ?_)
    unfold restFromSeed
    exact List.mem_append.mpr (Or.inl (by simp))

/-- C2 (witness): the migration-failure behavior at a concrete world whose
migration subprocess exits with status 2. -/
theorem migration_failure_witness :
    Event.print "migration broke" ∈ mainRun false true wMigFail
    ∧ finalExit (mainRun false true wMigFail) = some 1
    ∧ Event.runSeed ∉ mainRun false true wMigFail
    ∧ (∀ c, Event.findUser c ∉ mainRun false true wMigFail)
    ∧ (∀ t, Event.queryCount t ∉ mainRun false true wMigFail) :=
  migration_failure_is_fatal true wMigFail (by decide)

/-- C3: one run of `create_test_data` followed by a second changes nothing
(so row counts after two runs equal those after one), and on the
already-seeded state the informational lines report the existing user and
its accounts while the state is left untouched. -/
theorem fixture_idempotent :
    (∀ s : DBState,
      (create_test_data (create_test_data s).1).1 = (create_test_data s).1)
    ∧ Event.print "   ℹ️  Test user already exists" ∈
        (create_test_data seededDB).2
    ∧ Event.print "   ℹ️  User already has 3 accounts" ∈
        (create_test_data seededDB).2
    ∧ (create_test_data seededDB).1 = seededDB := by
  refine ⟨?_, by decide, by decide, by decide⟩
  intro s
  obtain ⟨a, rest, hU, hA, hP⟩ := ctd_post _
  exact ctd_noop _ a rest hU hA hP

/-- C4: after a successful seed run, the summary line printed right after
the seed subprocess is "✅ Loaded 22 instruments" exactly when the captured
stdout contains the marker substring and "✅ Seed data loaded" otherwise,
and either way the run finishes with exit status 0. -/
theorem seed_summary_message (wtd : Bool) (w : World)
    (hs : w.seed.returncode = 0) :
    (∃ tail, mainRun true wtd w =
      [Event.print "🚀 Database Reset Script", Event.print sep50,
       Event.print "\n🌱 Loading seed data...", Event.runSeed,
       Event.print (if hasMarker w.seed.stdout then
                      "✅ Loaded 22 instruments"
                    else "✅ Seed data loaded")] ++ tail)
    ∧ finalExit (mainRun true wtd w) = some 0 := by
  constructor
  · refine ⟨(if wtd = true then (create_test_data w.initialDB).2 else []) ++
      [Event.print "\n🔍 Final verification..."] ++ verifyEvents w ++
      closingEvents wtd, ?_⟩
    rw [mainRun_skip_eq, restFromSeed_ok_eq wtd w hs]
    simp [seedSuccessMessage, List.append_assoc]
  · rw [finalExit_mainRun_skip, finalExit_restFromSeed_ok wtd w hs]

/-- C4 (witness): the marker-present summary at a concrete world whose seed
stdout contains "22/22 instruments loaded". -/
theorem seed_summary_witness :
    (∃ tail, mainRun true false wMarker =
      [Event.print "🚀 Database Reset Script", Event.print sep50,
       Event.print "\n🌱 Loading seed data...", Event.runSeed,
       Event.print "✅ Loaded 22 instruments"] ++ tail)
    ∧ finalExit (mainRun true false wMarker) = some 0 :=
  seed_summary_message false wMarker rfl

/-- C5: the drop step issues drop-if-exists statements for exactly the five
tables in order positions, accounts, jobs, instruments, users, then the
helper function — independently of which drops raise; a raising drop is
caught and logged with a warning line; the drop step never exits the
process, and the migration step is always reached afterwards. -/
theorem drop_step_order_fault_tolerant (w : World) (wtd : Bool) :
    execSQLsOf (drop_all_tables w) =
      ["DROP TABLE IF EXISTS positions CASCADE",
       "DROP TABLE IF EXISTS accounts CASCADE",
       "DROP TABLE IF EXISTS jobs CASCADE",
       "DROP TABLE IF EXISTS instruments CASCADE",
       "DROP TABLE IF EXISTS users CASCADE",
       "DROP FUNCTION IF EXISTS update_updated_at_column() CASCADE"]
    ∧ (∀ t m, w.dropTableError t = some m → t ∈ tables_to_drop →
        Event.print ("   ⚠️  Error dropping " ++ t ++ ": " ++ m) ∈
          drop_all_tables w)
    ∧ (∀ c, Event.exit c ∉ drop_all_tables w)
    ∧ Event.runMigration ∈ mainRun false wtd w := by
  refine ⟨execSQLsOf_drop_all w, ?_, ?_, ?_⟩
  · intro t m hm ht
    unfold drop_all_tables
    refine List.mem_append.mpr (Or.inl (List.mem_append.mpr (Or.inl
      (List.mem_append.mpr (Or.inr ?_)))))
    refine List.mem_flatMap.mpr ⟨t, ht, ?_⟩
    unfold dropTableEvents
    rw [hm]
    simp
  · intro c
    exact not_mem_of_forall (drop_events_classified w) (by rfl)
  · by_cases hmig : w.migration.returncode = 0
    · rw [mainRun_nodrop_ok_eq wtd w hmig]; simp
    · rw [mainRun_migfail_eq wtd w hmig]; simp

/-- C5 (witness): the caught-and-logged warning line at a concrete world
where dropping the positions table raises. -/
theorem drop_step_witness :
    Event.print "   ⚠️  Error dropping positions: boom" ∈
      drop_all_tables wDropFail :=
  (drop_step_order_fault_tolerant wDropFail false).2.1 "positions" "boom"
    (by decide) (by decide)

/-- C6 (witness): the exit-code behavior at a concrete world whose seed
subprocess fails with status 1 under `--skip-drop`. -/
theorem exit_code_witness :
    finalExit (mainRun true false wSeedFail) = some 1
    ∧ (Event.print "seed broke" ∈ mainRun true false wSeedFail
       ∧ (∀ c, Event.findUser c ∉ mainRun true false wSeedFail)
       ∧ (∀ t, Event.queryCount t ∉ mainRun true false wSeedFail)) :=
  ⟨(exit_code_correct true false wSeedFail).1,
   (exit_code_correct true false wSeedFail).2 (Or.inl rfl) (by decide)⟩

/-- C7: on a state with no test user, no accounts for it and no positions,
`create_test_data` inserts exactly one user with clerk id test_user_001,
exactly the three named accounts, and exactly the five fixed positions, all
attached to the first created account. -/
theorem fresh_fixture_deterministic (s : DBState)
    (h1 : find_by_clerk_id s "test_user_001" = none)
    (h2 : find_by_user s "test_user_001" = [])
    (h3 : s.positions = []) :
    ((create_test_data s).1.users.filter
        (fun u => u.clerk_user_id == "test_user_001")).length = 1
    ∧ (find_by_user (create_test_data s).1 "test_user_001").map
        (fun a => a.account_name) =
        ["401(k)", "Roth IRA", "Taxable Brokerage"]
    ∧ (find_by_user (create_test_data s).1 "test_user_001").map
        (fun a => a.id) =
        [s.nextAccountId, s.nextAccountId + 1, s.nextAccountId + 2]
    ∧ (create_test_data s).1.positions = fixturePositionRows s.nextAccountId
    ∧ (fixturePositionRows s.nextAccountId).map
        (fun p => (p.symbol, p.quantity)) =
        [("SPY", (⟨100, 0⟩ : Dec)), ("QQQ", ⟨50, 0⟩), ("BND", ⟨200, 0⟩),
         ("VEA", ⟨150, 0⟩), ("GLD", ⟨25, 0⟩)]
    ∧ ∀ p ∈ fixturePositionRows s.nextAccountId,
        p.account_id = s.nextAccountId := by
  have hu := userStep_create s h1
  have hu_users : (userStep s).1.users = s.users ++ [test_user] := by
    rw [hu]; rfl
  have hu_accounts : (userStep s).1.accounts = s.accounts := by rw [hu]; rfl
  have hu_positions : (userStep s).1.positions = s.positions := by
    rw [hu]; rfl
  have hu_next : (userStep s).1.nextAccountId = s.nextAccountId := by
    rw [hu]; rfl
  have hA1 : find_by_user (userStep s).1 "test_user_001" = [] := by
    simp only [find_by_user, hu_accounts]
    exact h2
  obtain ⟨hc1, hc2⟩ := accountStep_create _ hA1
  obtain ⟨lfU, lfP, lfA, lfI⟩ := loopA_fields (userStep s).1
  have hids : (accountStep (userStep s).1).2.1 =
      [s.nextAccountId, s.nextAccountId + 1, s.nextAccountId + 2] := by
    rw [hc2, lfI, hu_next]
  have h2U : (accountStep (userStep s).1).1.users =
      s.users ++ [test_user] := by rw [hc1, lfU, hu_users]
  have h2A : (accountStep (userStep s).1).1.accounts =
      s.accounts ++ fixtureAccountRows s.nextAccountId := by
    rw [hc1, lfA, hu_accounts, hu_next]
  have h2P : (accountStep (userStep s).1).1.positions = s.positions := by
    rw [hc1, lfP, hu_positions]
  have hE : find_by_account (accountStep (userStep s).1).1
      s.nextAccountId = [] := by
    simp only [find_by_account, h2P, h3, List.filter_nil]
  simp only [create_test_data, hids]
  rw [positionStep_create _ _ _ hE]
  obtain ⟨pU, pA, _, pP⟩ :=
    loopP_fields (accountStep (userStep s).1).1 s.nextAccountId
  have h2filter : s.accounts.filter
      (fun x => x.user_id == "test_user_001") = [] := h2
  have hfu : find_by_user
      (addPositionsLoop (accountStep (userStep s).1).1 s.nextAccountId
        fixture_positions).1 "test_user_001" =
      fixtureAccountRows s.nextAccountId := by
    simp only [find_by_user, pA, h2A, List.filter_append, h2filter,
      filter_fixtureAccountRows, List.nil_append]
  refine ⟨?_, ?_, ?_, ?_, rfl, by simp [fixturePositionRows]⟩
  · have h1' : s.users.find?
        (fun u => u.clerk_user_id == "test_user_001") = none := h1
    rw [pU, h2U, List.filter_append, filter_eq_nil_of_find?_eq_none h1']
    rfl
  · rw [hfu]; rfl
  · rw [hfu]; rfl
  · rw [pP, h2P, h3]; rfl

/-- C7 (witness): the deterministic fixture evaluated on the empty
database, where the first created account gets id 1. -/
theorem fresh_fixture_witness :
    ((create_test_data emptyDB).1.users.filter
        (fun u => u.clerk_user_id == "test_user_001")).length = 1
    ∧ (find_by_user (create_test_data emptyDB).1 "test_user_001").map
        (fun a => a.account_name) =
        ["401(k)", "Roth IRA", "Taxable Brokerage"]
    ∧ (find_by_user (create_test_data emptyDB).1 "test_user_001").map
        (fun a => a.id) = [1, 2, 3]
    ∧ (create_test_data emptyDB).1.positions = fixturePositionRows 1
    ∧ (fixturePositionRows 1).map (fun p => (p.symbol, p.quantity)) =
        [("SPY", (⟨100, 0⟩ : Dec)), ("QQQ", ⟨50, 0⟩), ("BND", ⟨200, 0⟩),
         ("VEA", ⟨150, 0⟩), ("GLD", ⟨25, 0⟩)]
    ∧ ∀ p ∈ fixturePositionRows 1, p.account_id = 1 :=
  fresh_fixture_deterministic emptyDB rfl rfl rfl

/-- C8: on every successful run, the trace ends with the verification
block — one count query per table in the fixed order users, instruments,
accounts, positions, jobs, with a printed count line each — the
verification block performs no writes, and the run exits 0 whatever the
counts are. -/
theorem verification_report (w : World) (wtd sd : Bool)
    (hm : sd = true ∨ w.migration.returncode = 0)
    (hs : w.seed.returncode = 0) :
    (∃ pre, mainRun sd wtd w = pre ++
        [Event.print "\n🔍 Final verification..."] ++ verifyEvents w ++
        closingEvents wtd)
    ∧ queriesOf (verifyEvents w) = verifyTables
    ∧ (∀ e ∈ verifyEvents w, isWrite e = false)
    ∧ finalExit (mainRun sd wtd w) = some 0 := by
  refine ⟨?_, queriesOf_verifyEvents w,
    fun e he => isWrite_false_of_verify (verify_events_classified w e he),
    ?_⟩
  · cases sd
    · have hmig : w.migration.returncode = 0 := by
        rcases hm with h | h
        · exact absurd h (by simp)
        · exact h
      refine ⟨[Event.print "🚀 Database Reset Script", Event.print sep50] ++
        drop_all_tables w ++
        [Event.print "\n📝 Running migrations...", Event.runMigration,
         Event.print "✅ Migrations completed",
         Event.print "\n🌱 Loading seed data...", Event.runSeed,
         Event.print (seedSuccessMessage w.seed.stdout)] ++
        (if wtd = true then (create_test_data w.initialDB).2 else []), ?_⟩
      rw [mainRun_nodrop_ok_eq wtd w hmig, restFromSeed_ok_eq wtd w hs]
      simp [List.append_assoc]
    · refine ⟨[Event.print "🚀 Database Reset Script", Event.print sep50,
        Event.print "\n🌱 Loading seed data...", Event.runSeed,
        Event.print (seedSuccessMessage w.seed.stdout)] ++
        (if wtd = true then (create_test_data w.initialDB).2 else []), ?_⟩
      rw [mainRun_skip_eq, restFromSeed_ok_eq wtd w hs]
      simp [List.append_assoc]
  · cases sd
    · have hmig : w.migration.returncode = 0 := by
        rcases hm with h | h
        · exact absurd h (by simp)
        · exact h
      rw [finalExit_mainRun_nodrop_ok wtd w hmig,
        finalExit_restFromSeed_ok wtd w hs]
    · rw [finalExit_mainRun_skip, finalExit_restFromSeed_ok wtd w hs]

/-- C8 (witness): the verification block at a concrete healthy world whose
count queries all return empty row lists (counts of zero), with the test
fixture enabled; the run still exits 0. -/
theorem verification_report_witness :
    (∃ pre, mainRun false true wZeroCounts = pre ++
        [Event.print "\n🔍 Final verification..."] ++
        verifyEvents wZeroCounts ++ closingEvents true)
    ∧ queriesOf (verifyEvents wZeroCounts) = verifyTables
    ∧ (∀ e ∈ verifyEvents wZeroCounts, isWrite e = false)
    ∧ finalExit (mainRun false true wZeroCounts) = some 0 :=
  verification_report wZeroCounts true false (Or.inr rfl) rfl

/-- C9: when a count query returns an empty row list, the guarded access
prints a count of 0 for that table rather than failing. -/
theorem verify_count_empty_guard (w : World) (t : String)
    (h : w.queryResult t = []) :
    verifyTableEvents w t =
      [Event.queryCount t,
       Event.print ("   • " ++ t ++ ": " ++ "0" ++ " records")] := by
  unfold verifyTableEvents
  rw [h]
  rfl

/-- C9 (witness): the zero-count line for the users table in a world whose
queries return no rows. -/
theorem verify_count_empty_witness :
    verifyTableEvents wZeroCounts "users" =
      [Event.queryCount "users", Event.print "   • users: 0 records"] :=
  verify_count_empty_guard wZeroCounts "users" rfl

/-- C10: the `account_ids` list is non-empty on every execution path of
`create_test_data`, so the `if account_ids:` guard never skips the position
block: the position lookup is reached on every call. -/
theorem position_step_always_reached (s : DBState) :
    (accountStep (userStep s).1).2.1 ≠ []
    ∧ ∃ aid rest, (accountStep (userStep s).1).2.1 = aid :: rest
        ∧ Event.findPositions aid ∈ (create_test_data s).2 := by
  rcases hAl : find_by_user (userStep s).1 "test_user_001" with _ | ⟨a, rest⟩
  · obtain ⟨hc1, hc2⟩ := accountStep_create _ hAl
    obtain ⟨_, _, _, lfI⟩ := loopA_fields (userStep s).1
    have hids : (accountStep (userStep s).1).2.1 =
        [(userStep s).1.nextAccountId, (userStep s).1.nextAccountId + 1,
         (userStep s).1.nextAccountId + 2] := by rw [hc2, lfI]
    refine ⟨by rw [hids]; simp, (userStep s).1.nextAccountId, _, hids, ?_⟩
    simp only [create_test_data]
    refine List.mem_append.mpr (Or.inr ?_)
    rw [hids]
    exact positionStep_mem_find _ _ _
  · obtain ⟨h2a, h2b⟩ := accountStep_reuse _ a rest hAl
    have hids : (accountStep (userStep s).1).2.1 =
        a.id :: rest.map (fun x => x.id) := by rw [h2b, List.map_cons]
    refine ⟨by rw [hids]; simp, a.id, rest.map (fun x => x.id), hids, ?_⟩
    simp only [create_test_data]
    refine List.mem_append.mpr (Or.inr ?_)
    rw [hids]
    exact positionStep_mem_find _ _ _

end ResetDb
